import Mathlib

/-!
Verification of the flash-programming engine and AP/DP layer of the
probe-rs repository, shallowly embedded in Lean 4.

The embedding follows `src/probe-rs/src/flash/flasher.rs` (flash algorithm
runner) and `src/probe-rs/src/probe/mod.rs` (MasterProbe, SELECT cache,
nRF recover).  Machine integers are modelled as `Nat`; the only place a
u32 addition can overflow (`load_address + 1` for the link register) is
reduced modulo `2 ^ 32`.  The probe target is modelled as a word-addressed
memory `Nat → Nat` together with an abstract routine executor
`exec : Regs → Nat` giving the result word the flash routine leaves in R0
when the sentinel breakpoint halts the core.
-/

/-- Names of flash algorithm routines, used in `CallFailed` errors.
The source stores them as strings; they are modelled as an enumeration
(`rProgramPage` is the string handed to `CallFailed` by `erase_all`,
`erase_sector` and `program_page` alike in the source). -/
inductive RoutineName
  | rInit
  | rUninit
  | rProgramPage
deriving DecidableEq

/-- Kinds for the `NotFound` error, from the error taxonomy. -/
inductive NotFoundKind
  | CtrlAp
deriving DecidableEq

/-- Error kinds of the flasher and probe layer.  The error module itself is
not part of the extracted sources; the kinds are the ones raised via the
`res!` macro in `flasher.rs` / `probe/mod.rs`, plus `VerifyMismatch` which
the spec taxonomy lists. -/
inductive FlasherError
  | CallFailed (call : RoutineName) (result : Nat)
  | EraseAllNotSupported
  | Flasher
  | NotFound (kind : NotFoundKind)
  | VerifyMismatch (address : Nat)
deriving DecidableEq

/-- The core registers seeded by `ActiveFlasher::call_function`
(`flasher.rs`, lines 352-361). -/
structure Regs where
  pc : Nat
  r0 : Nat
  r1 : Nat
  r2 : Nat
  r3 : Nat
  r9 : Nat
  sp : Nat
  lr : Nat
deriving DecidableEq

/-- Core state: the register file plus whether the core is halted. -/
structure CoreState where
  regs : Regs
  halted : Bool
deriving DecidableEq

/-- A flash algorithm description (`FlashAlgorithm` in the config module;
the fields are the ones `flasher.rs` reads). -/
structure FlashAlgorithm where
  instructions : List Nat
  pc_init : Option Nat
  pc_uninit : Option Nat
  pc_erase_all : Option Nat
  pc_erase_sector : Nat
  pc_program_page : Nat
  load_address : Nat
  begin_stack : Nat
  begin_data : Nat
  static_base : Nat
  page_buffers : List Nat
deriving DecidableEq

/-- `ActiveFlasher::call_function` (`flasher.rs`, lines 330-385): seed
PC/R0-R3 (a `none` argument leaves the register unchanged), R9 and SP only
on init, and LR := `load_address + 1` (u32 wrapping add), then resume the
core (`halted := false`). -/
def call_function (algo : FlashAlgorithm) (pc : Nat)
    (a0 a1 a2 a3 : Option Nat) (init : Bool) (s : CoreState) : CoreState :=
  { regs :=
      { pc := pc
        r0 := a0.getD s.regs.r0
        r1 := a1.getD s.regs.r1
        r2 := a2.getD s.regs.r2
        r3 := a3.getD s.regs.r3
        r9 := if init then algo.static_base else s.regs.r9
        sp := if init then algo.begin_stack else s.regs.sp
        lr := (algo.load_address + 1) % 2 ^ 32 }
    halted := false }

/-- `ActiveFlasher::wait_for_completion` (`flasher.rs`, lines 387-400) in
the abstract-executor model: the routine runs to its breakpoint, the core
halts, and R0 holds the routine's result word `exec s.regs`. -/
def wait_for_completion (exec : Regs → Nat) (s : CoreState) : Nat × CoreState :=
  let r := exec s.regs
  (r, { regs := { s.regs with r0 := r }, halted := true })

/-- `ActiveFlasher::call_function_and_wait` (`flasher.rs`, lines 317-328). -/
def call_function_and_wait (algo : FlashAlgorithm) (exec : Regs → Nat) (pc : Nat)
    (a0 a1 a2 a3 : Option Nat) (init : Bool) (s : CoreState) : Nat × CoreState :=
  wait_for_completion exec (call_function algo pc a0 a1 a2 a3 init s)

/-- The register file seeded for the `pc_init` call: `ActiveFlasher::init`
passes `(address, clock.or(Some(0)), Some(O::operation()), None, init = true)`
to `call_function` (`flasher.rs`, lines 252-261). -/
def initCallRegs (op : Nat) (algo : FlashAlgorithm) (pc : Nat)
    (address clock : Option Nat) (s : CoreState) : Regs :=
  (call_function algo pc address
    (match clock with
     | some c => some c
     | none => some 0) (some op) none true s).regs

/-- The register file seeded for the `pc_uninit` call: `ActiveFlasher::uninit`
passes `(Some(O::operation()), None, None, None, init = false)`
(`flasher.rs`, lines 290-298). -/
def uninitCallRegs (op : Nat) (algo : FlashAlgorithm) (pc : Nat)
    (s : CoreState) : Regs :=
  (call_function algo pc (some op) none none none false s).regs

/-- `ActiveFlasher::init` (`flasher.rs`, lines 248-272): when `pc_init` is
present, run it and fail with `CallFailed("init", result)` on a non-zero
result word; otherwise succeed without touching the core. -/
def ActiveFlasher.init (op : Nat) (algo : FlashAlgorithm) (exec : Regs → Nat)
    (address clock : Option Nat) (s : CoreState) :
    Except FlasherError Unit × CoreState :=
  match algo.pc_init with
  | some pci =>
      let rs := call_function_and_wait algo exec pci address
        (match clock with
         | some c => some c
         | none => some 0) (some op) none true s
      if rs.1 ≠ 0 then (.error (.CallFailed .rInit rs.1), rs.2)
      else (.ok (), rs.2)
  | none => (.ok (), s)

/-- `ActiveFlasher::uninit` (`flasher.rs`, lines 286-315). -/
def ActiveFlasher.uninit (op : Nat) (algo : FlashAlgorithm) (exec : Regs → Nat)
    (s : CoreState) : Except FlasherError Unit × CoreState :=
  match algo.pc_uninit with
  | some pcu =>
      let rs := call_function_and_wait algo exec pcu (some op) none none none false s
      if rs.1 ≠ 0 then (.error (.CallFailed .rUninit rs.1), rs.2)
      else (.ok (), rs.2)
  | none => (.ok (), s)

/-- `ActiveFlasher::<Erase>::erase_all` (`flasher.rs`, lines 414-434):
requires `pc_erase_all`; a non-zero result word is surfaced as
`CallFailed` (the source hands it the string "program_page"). -/
def erase_all (algo : FlashAlgorithm) (exec : Regs → Nat) (s : CoreState) :
    Except FlasherError Unit × CoreState :=
  match algo.pc_erase_all with
  | some pce =>
      let rs := call_function_and_wait algo exec pce none none none none false s
      if rs.1 ≠ 0 then (.error (.CallFailed .rProgramPage rs.1), rs.2)
      else (.ok (), rs.2)
  | none => (.error .EraseAllNotSupported, s)

/-- Target memory word traffic: `write_block32` (MEM-AP block write) stores
the 32-bit words of `data` at `addr`, `addr + 4`, `addr + 8`, ... -/
def write_block32 (mem : Nat → Nat) (addr : Nat) : List Nat → Nat → Nat
  | [] => mem
  | w :: ws => write_block32 (fun a => if a = addr then w else mem a) (addr + 4) ws

/-- `read_block32` reads `n` consecutive 32-bit words starting at `addr`. -/
def read_block32 (mem : Nat → Nat) (addr : Nat) : Nat → List Nat
  | 0 => []
  | n + 1 => mem addr :: read_block32 mem (addr + 4) n

/-- Outcome of one step of `Flasher::init`: success, an error return, or a
Rust panic (the source's `assert_eq!`). -/
inductive StepOutcome (α : Type)
  | ok (a : α)
  | error (e : FlasherError)
  | panic
deriving DecidableEq

/-- The blob readback check of `Flasher::init` (`flasher.rs`, line 155):
`assert_eq!(&algo.instructions, &data.as_slice())` — equality passes,
any difference panics the process. -/
def readbackCheck (instructions data : List Nat) : StepOutcome Unit :=
  if instructions = data then .ok () else .panic

/-- The blob upload of `Flasher::init` (`flasher.rs`, lines 143-156): write
the instruction words to `load_address` as a 32-bit block write, read them
back, and run the readback check. -/
def uploadAndCheck (algo : FlashAlgorithm) (mem : Nat → Nat) :
    StepOutcome (Nat → Nat) :=
  let mem1 := write_block32 mem algo.load_address algo.instructions
  let data := read_block32 mem1 algo.load_address algo.instructions.length
  match readbackCheck algo.instructions data with
  | .ok _ => .ok mem1
  | .error e => .error e
  | .panic => .panic

/-- Result of `Flasher::init`: the final core state and target memory, an
error with the state it leaves behind, or a panic. -/
inductive InitResult
  | ok (s : CoreState) (mem : Nat → Nat)
  | error (e : FlasherError) (s : CoreState) (mem : Nat → Nat)
  | panic

/-- Whether a `Flasher::init` run succeeded. -/
def InitResult.isOk : InitResult → Bool
  | .ok _ _ => true
  | _ => false

/-- `Flasher::init` (`flasher.rs`, lines 85-176): default the address hint
to the region's `rom_start` when the caller passed `None` (lines 126-128),
halt / wait-for-halt / reset-and-halt the core (lines 131-139, modelled as
setting `halted := true`), upload and verify the blob (lines 143-156), and
run `ActiveFlasher::init` (line 173).  The capstone disassembly
(lines 94-124) is diagnostic only and does not affect the result. -/
def Flasher.init (op : Nat) (algo : FlashAlgorithm) (romStart : Nat)
    (exec : Regs → Nat) (mem : Nat → Nat) (addrHint clock : Option Nat)
    (s : CoreState) : InitResult :=
  let address : Option Nat :=
    match addrHint with
    | some a => some a
    | none => some romStart
  let s1 : CoreState := { s with halted := true }
  match uploadAndCheck algo mem with
  | .panic => .panic
  | .error e => .error e s1 mem
  | .ok mem1 =>
      match ActiveFlasher.init op algo exec address clock s1 with
      | (.ok _, s2) => .ok s2 mem1
      | (.error e, s2) => .error e s2 mem1

/-- The register file seeded for the `pc_init` call as issued by
`Flasher::init`: the address hint defaulted to `romStart`, the core already
halted by the preceding halt / reset-and-halt sequence. -/
def flasherInitRegs (op : Nat) (algo : FlashAlgorithm) (pc romStart : Nat)
    (addrHint clock : Option Nat) (s : CoreState) : Regs :=
  initCallRegs op algo pc
    (match addrHint with
     | some a => some a
     | none => some romStart) clock { s with halted := true }

/-- Argument bundle of a routine invocation issued through `call_function`. -/
structure CallSpec where
  pc : Nat
  r0 : Option Nat
  r1 : Option Nat
  r2 : Option Nat
  r3 : Option Nat
  init : Bool
deriving DecidableEq

/-- Outcome of the double-buffer entry points: an error return
(`res!(Flasher)`), a Rust panic from an out-of-bounds `page_buffers` index,
or the issued call / RAM write. -/
inductive BufOutcome (α : Type)
  | error
  | panicked
  | ok (a : α)
deriving DecidableEq

/-- `ActiveFlasher::<Program>::start_program_page_with_buffer`
(`flasher.rs`, lines 499-527): the source rejects
`buffer_number < page_buffers.len()` with an error and otherwise indexes
`page_buffers[buffer_number]` (a panic whenever the index is out of
bounds). -/
def start_program_page_with_buffer (algo : FlashAlgorithm) (page_size : Nat)
    (address buffer_number : Nat) : BufOutcome CallSpec :=
  if buffer_number < algo.page_buffers.length then .error
  else
    match algo.page_buffers[buffer_number]? with
    | some buf =>
        .ok ⟨algo.pc_program_page, some address, some page_size, some buf,
             none, false⟩
    | none => .panicked

/-- `ActiveFlasher::<Program>::load_page_buffer` (`flasher.rs`,
lines 529-551): same inverted guard, then an 8-bit block write of `bytes`
to `page_buffers[buffer_number]`. -/
def load_page_buffer (algo : FlashAlgorithm) (bytes : List Nat)
    (buffer_number : Nat) : BufOutcome (Nat × List Nat) :=
  if buffer_number < algo.page_buffers.length then .error
  else
    match algo.page_buffers[buffer_number]? with
    | some buf => .ok (buf, bytes)
    | none => .panicked

/-- The SELECT cache of `MasterProbe` (`probe/mod.rs`, lines 52-56):
`current_apsel` and `current_apbanksel`. -/
structure ProbeState where
  current_apsel : Nat
  current_apbanksel : Nat
deriving DecidableEq

/-- `MasterProbe::from_specific_probe` (`probe/mod.rs`, lines 59-65): a plain
constructor, both cache fields start at 0 and no probe I/O is performed. -/
def from_specific_probe : ProbeState :=
  { current_apsel := 0, current_apbanksel := 0 }

/-- `MasterProbe::select_ap_and_ap_bank` (`probe/mod.rs`, lines 71-105):
update the cache fields that differ from the request; when either changed,
write DP SELECT with `(ap_sel, ap_bank_sel)` taken from the updated cache.
The second component is the list of SELECT writes put on the wire. -/
def select_ap_and_ap_bank (s : ProbeState) (port ap_bank : Nat) :
    ProbeState × List (Nat × Nat) :=
  let changed1 := s.current_apsel ≠ port
  let s1 := if changed1 then { s with current_apsel := port } else s
  let changed2 := s1.current_apbanksel ≠ ap_bank
  let s2 := if changed2 then { s1 with current_apbanksel := ap_bank } else s1
  if changed1 ∨ changed2 then
    (s2, [(s2.current_apsel, s2.current_apbanksel)])
  else (s2, [])

/-- AP class tag of the IDR register (`generic_ap`; only `Undefined` appears
in the extracted sources, a second class stands for every other value). -/
inductive APClass
  | Undefined
  | MemAp
deriving DecidableEq

/-- AP type tag of the IDR register (`JTAG_COM_AP` is the one the Control
AP fingerprint uses). -/
inductive APType
  | JTAG_COM_AP
  | AmbaAhb
deriving DecidableEq

/-- The IDR register contents compared against the Control AP fingerprint
(`probe/mod.rs`, lines 29-36). -/
structure IDR where
  REVISION : Nat
  DESIGNER : Nat
  CLASS : APClass
  RES0 : Nat
  VARIANT : Nat
  TYPE : APType
deriving DecidableEq

/-- `CTRL_AP_IDR` (`probe/mod.rs`, lines 29-36): the nRF Control AP
fingerprint. -/
def CTRL_AP_IDR : IDR :=
  { REVISION := 0
    DESIGNER := 0x0144
    CLASS := APClass.Undefined
    RES0 := 0
    VARIANT := 0
    TYPE := APType.JTAG_COM_AP }

/-- `UNLOCK_TIMEOUT` (`probe/mod.rs`, line 28): seconds before the
mass-erase status poll gives up. -/
def UNLOCK_TIMEOUT : Nat := 15

/-- Modelled from the spec: `get_ap_by_idr` (coresight `ap_access`, not in
the extracted sources) scans the access ports in order and returns the
first whose IDR satisfies the predicate ("scan APs to locate a Control AP
by matching a known IDR fingerprint", spec 4.2).  `idrs` lists the IDR read
from each AP in scan order; the result is the matching port number. -/
def get_ap_by_idr (idrs : List IDR) (f : IDR → Bool) : Option Nat :=
  idrs.findIdx? f

/-- The predicate `nrf_recover` hands to `get_ap_by_idr`
(`probe/mod.rs`, line 167): exact equality with `CTRL_AP_IDR`. -/
def ctrlApMatch (idr : IDR) : Bool :=
  idr = CTRL_AP_IDR

/-- Control AP registers written by `nrf_recover`. -/
inductive CtrlReg
  | RESET
  | ERASEALL
deriving DecidableEq

/-- The ERASEALLSTATUS poll loop of `nrf_recover` (`probe/mod.rs`,
lines 187-195), driven by the trace of `(ERASEALLSTATUS, elapsed seconds)`
pairs the target produces: break `false` once the status reads clear,
break `true` once the elapsed time reaches `UNLOCK_TIMEOUT`.  `none` means
the trace ended without either condition (the loop would still be
running). -/
def erasePollLoop : List (Bool × Nat) → Option Bool
  | [] => none
  | (status, elapsed) :: rest =>
      if status = false then some false
      else if UNLOCK_TIMEOUT ≤ elapsed then some true
      else erasePollLoop rest

/-- Outcome of `nrf_recover`: the `NotFound(CtrlAp)` error, a still-running
poll loop, or success carrying the Control AP write log and whether the
poll timed out (timeout only prints a warning). -/
inductive RecoverOutcome
  | notFoundCtrlAp
  | stillPolling
  | ok (writes : List (CtrlReg × Bool)) (timedOut : Bool)
deriving DecidableEq

/-- The Control AP write sequence of a completed `nrf_recover`
(`probe/mod.rs`, lines 177-201): pulse RESET, set ERASEALL, poll, pulse
RESET again, clear ERASEALL. -/
def recoverWrites : List (CtrlReg × Bool) :=
  [(CtrlReg.RESET, true), (CtrlReg.RESET, false), (CtrlReg.ERASEALL, true),
   (CtrlReg.RESET, true), (CtrlReg.RESET, false), (CtrlReg.ERASEALL, false)]

/-- `MasterProbe::nrf_recover` (`probe/mod.rs`, lines 166-211): locate the
Control AP by IDR (else `NotFound(CtrlAp)`), pulse RESET, issue ERASEALL,
poll ERASEALLSTATUS until clear or `UNLOCK_TIMEOUT`, pulse RESET, clear
ERASEALL, and return success whether or not the poll timed out (the
initial status read before the loop, line 185, is logged only). -/
def nrf_recover (idrs : List IDR) (polls : List (Bool × Nat)) :
    RecoverOutcome :=
  match get_ap_by_idr idrs ctrlApMatch with
  | none => .notFoundCtrlAp
  | some _ =>
      match erasePollLoop polls with
      | none => .stillPolling
      | some timedOut => .ok recoverWrites timedOut

/-- The halt-wait loop of `ActiveFlasher::wait_for_completion`
(`flasher.rs`, lines 391-396): `while wait_for_core_halted().is_err() {}`.
`polls i` tells whether the i-th `wait_for_core_halted` call succeeds;
the result says whether the loop has exited after at most `fuel`
iterations starting from poll index `i`. -/
def waitHaltLoop (polls : Nat → Bool) (i : Nat) : Nat → Bool
  | 0 => false
  | fuel + 1 => if polls i then true else waitHaltLoop polls (i + 1) fuel

/-- The poll trace on which every `wait_for_core_halted` call returns an
error. -/
def allErrPolls : Nat → Bool :=
  fun _ => false

/-- The loop of `wait_for_completion` never exits on a trace of persistent
`wait_for_core_halted` errors, whatever the iteration budget. -/
def waitLoopNeverExits (polls : Nat → Bool) : Prop :=
  ∀ i fuel, waitHaltLoop polls i fuel = false

/-- Predicate singling out a `VerifyMismatch` error outcome. -/
def isVerifyMismatchOutcome : StepOutcome Unit → Bool
  | .error (.VerifyMismatch _) => true
  | _ => false

/-- A zeroed register file, for concrete evaluations. -/
def regs0 : Regs :=
  { pc := 0, r0 := 0, r1 := 0, r2 := 0, r3 := 0, r9 := 0, sp := 0, lr := 0 }

/-- A running core with zeroed registers, for concrete evaluations. -/
def cs0 : CoreState :=
  { regs := regs0, halted := false }

/-- A sample flash algorithm: blob of three words loaded at `0x20000000`,
`pc_init` and `pc_uninit` present, no `pc_erase_all`, two page buffers. -/
def algo0 : FlashAlgorithm :=
  { instructions := [1, 2, 3]
    pc_init := some 96
    pc_uninit := some 104
    pc_erase_all := none
    pc_erase_sector := 112
    pc_program_page := 120
    load_address := 536870912
    begin_stack := 536872960
    begin_data := 536873984
    static_base := 536875008
    page_buffers := [536875008, 536879104] }

/-- `algo0` with a `pc_erase_all` entry point. -/
def algoEA : FlashAlgorithm :=
  { algo0 with pc_erase_all := some 128 }

/-- `algo0` with an odd load address (bit 0 already set). -/
def algoOdd : FlashAlgorithm :=
  { algo0 with load_address := 1 }

/-- All-zero target memory. -/
def mem0 : Nat → Nat :=
  fun _ => 0

/-- A routine executor whose routines always return result word 0. -/
def exec0 : Regs → Nat :=
  fun _ => 0

/-- A routine executor whose routines always return result word 7. -/
def exec7 : Regs → Nat :=
  fun _ => 7

/-- A halt-poll trace that first succeeds on the third call. -/
def somePolls : Nat → Bool :=
  fun n => n == 2

/-- Words written below the block's start address are untouched. -/
theorem write_block32_lt (l : List Nat) (a : Nat) :
    ∀ (mem : Nat → Nat) (addr : Nat), a < addr →
      write_block32 mem addr l a = mem a := by
  induction l with
  | nil => intro mem addr _; rfl
  | cons w ws ih =>
      intro mem addr h
      simp only [write_block32]
      rw [ih _ _ (by omega)]
      simp [Nat.ne_of_lt h]

/-- Reading back a block write returns exactly the written words. -/
theorem read_write_block32 (l : List Nat) :
    ∀ (mem : Nat → Nat) (addr : Nat),
      read_block32 (write_block32 mem addr l) addr l.length = l := by
  induction l with
  | nil => intro mem addr; rfl
  | cons w ws ih =>
      intro mem addr
      simp only [write_block32, List.length_cons, read_block32]
      rw [write_block32_lt ws addr _ (addr + 4) (by omega)]
      simp [ih]

/-- On a memory-backed target the upload's readback check always passes. -/
theorem uploadAndCheck_ok (algo : FlashAlgorithm) (mem : Nat → Nat) :
    uploadAndCheck algo mem =
      .ok (write_block32 mem algo.load_address algo.instructions) := by
  simp [uploadAndCheck, readbackCheck, read_write_block32]

/-- Characterization of `ActiveFlasher.init` when `pc_init` is present. -/
theorem activeFlasherInit_some (op : Nat) (algo : FlashAlgorithm)
    (exec : Regs → Nat) (address clock : Option Nat) (s : CoreState) (pc : Nat)
    (hpc : algo.pc_init = some pc) :
    ActiveFlasher.init op algo exec address clock s =
      (if exec (initCallRegs op algo pc address clock s) = 0 then .ok ()
       else .error (.CallFailed .rInit
              (exec (initCallRegs op algo pc address clock s))),
       { regs := { initCallRegs op algo pc address clock s with
                     r0 := exec (initCallRegs op algo pc address clock s) }
         halted := true }) := by
  simp only [ActiveFlasher.init, hpc, call_function_and_wait, wait_for_completion,
    initCallRegs]
  by_cases h : exec (call_function algo pc address
      (match clock with
       | some c => some c
       | none => some 0) (some op) none true s).regs = 0 <;>
    simp [h]

/-- Characterization of `Flasher.init` when `pc_init` is present: the blob
lands in memory, the readback check passes, and the outcome is decided by
the result word of the `pc_init` call on the seeded registers. -/
theorem flasherInit_some (op : Nat) (algo : FlashAlgorithm) (romStart : Nat)
    (exec : Regs → Nat) (mem : Nat → Nat) (addrHint clock : Option Nat)
    (s : CoreState) (pc : Nat) (hpc : algo.pc_init = some pc) :
    Flasher.init op algo romStart exec mem addrHint clock s =
      (if exec (flasherInitRegs op algo pc romStart addrHint clock s) = 0 then
        InitResult.ok
          { regs := { flasherInitRegs op algo pc romStart addrHint clock s with
                        r0 := exec (flasherInitRegs op algo pc romStart addrHint clock s) }
            halted := true }
          (write_block32 mem algo.load_address algo.instructions)
       else
        InitResult.error
          (FlasherError.CallFailed RoutineName.rInit
            (exec (flasherInitRegs op algo pc romStart addrHint clock s)))
          { regs := { flasherInitRegs op algo pc romStart addrHint clock s with
                        r0 := exec (flasherInitRegs op algo pc romStart addrHint clock s) }
            halted := true }
          (write_block32 mem algo.load_address algo.instructions)) := by
  simp only [Flasher.init, uploadAndCheck_ok, flasherInitRegs,
    activeFlasherInit_some op algo exec _ clock _ pc hpc]
  by_cases h : exec (initCallRegs op algo pc
      (match addrHint with
       | some a => some a
       | none => some romStart) clock { s with halted := true }) = 0 <;>
    simp [h]

/-- C1: when `pc_init` is present, the runner's init seeds `r0` with the
caller's address hint defaulted to the region start, `r1` with the clock
defaulted to 0, and `r2` with the operation's phase value; the call
succeeds iff the routine's result word is 0, and a non-zero result fails
with `CallFailed("init", result)` leaving the target halted. -/
theorem c1_init_call (op : Nat) (algo : FlashAlgorithm) (exec : Regs → Nat)
    (romStart : Nat) (addrHint clock : Option Nat) (mem : Nat → Nat)
    (s : CoreState) (pc : Nat) (hpc : algo.pc_init = some pc) :
    (flasherInitRegs op algo pc romStart addrHint clock s).r0 =
        addrHint.getD romStart ∧
    (flasherInitRegs op algo pc romStart addrHint clock s).r1 = clock.getD 0 ∧
    (flasherInitRegs op algo pc romStart addrHint clock s).r2 = op ∧
    ((Flasher.init op algo romStart exec mem addrHint clock s).isOk = true ↔
      exec (flasherInitRegs op algo pc romStart addrHint clock s) = 0) ∧
    (exec (flasherInitRegs op algo pc romStart addrHint clock s) ≠ 0 →
      Flasher.init op algo romStart exec mem addrHint clock s =
        InitResult.error
          (FlasherError.CallFailed RoutineName.rInit
            (exec (flasherInitRegs op algo pc romStart addrHint clock s)))
          { regs := { flasherInitRegs op algo pc romStart addrHint clock s with
                        r0 := exec (flasherInitRegs op algo pc romStart addrHint clock s) }
            halted := true }
          (write_block32 mem algo.load_address algo.instructions)) := by
  refine ⟨?_, ?_, ?_, ?_, ?_⟩
  · cases addrHint <;> simp [flasherInitRegs, initCallRegs, call_function]
  · cases clock <;> simp [flasherInitRegs, initCallRegs, call_function]
  · simp [flasherInitRegs, initCallRegs, call_function]
  · rw [flasherInit_some op algo romStart exec mem addrHint clock s pc hpc]
    by_cases h : exec (flasherInitRegs op algo pc romStart addrHint clock s) = 0 <;>
      simp [h, InitResult.isOk]
  · intro h
    rw [flasherInit_some op algo romStart exec mem addrHint clock s pc hpc]
    simp [h]

/-- Witness for C1 at a concrete input: `pc_init` returning 7 makes init
fail, and the seeded registers carry the defaulted hint, clock 0 and the
Program phase 2. -/
theorem c1_init_call_witness :
    (flasherInitRegs 2 algo0 96 4096 none none cs0).r0 = 4096 ∧
    (flasherInitRegs 2 algo0 96 4096 none none cs0).r1 = 0 ∧
    (flasherInitRegs 2 algo0 96 4096 none none cs0).r2 = 2 ∧
    (Flasher.init 2 algo0 4096 exec7 mem0 none none cs0).isOk = false := by
  have h := c1_init_call 2 algo0 exec7 4096 none none mem0 cs0 96 rfl
  refine ⟨h.1, h.2.1, h.2.2.1, ?_⟩
  have h4 := h.2.2.2.1
  simp only [exec7] at h4
  simp at h4
  simp [h4]

/-- C2 counterexample: a readback differing from the instructions makes
`Flasher::init` panic through its `assert_eq!`; it does not return a
`VerifyMismatch` error. -/
theorem c2_counterexample :
    readbackCheck [0] [1] = StepOutcome.panic ∧
    isVerifyMismatchOutcome (readbackCheck [0] [1]) = false := by
  decide

/-- C2 (amended): `Flasher::init` writes the blob to `load_address` as a
32-bit block write and reads it back; on a memory-backed target the
readback equals the instructions, the assertion passes, and the target
memory at `load_address` holds exactly the instruction words (a mismatch
would panic the assertion rather than produce a `VerifyMismatch` error). -/
theorem c2_blob_roundtrip (algo : FlashAlgorithm) (mem : Nat → Nat) :
    uploadAndCheck algo mem =
      .ok (write_block32 mem algo.load_address algo.instructions) ∧
    read_block32 (write_block32 mem algo.load_address algo.instructions)
      algo.load_address algo.instructions.length = algo.instructions :=
  ⟨uploadAndCheck_ok algo mem, read_write_block32 algo.instructions mem algo.load_address⟩

/-- C3: a DP SELECT write is issued exactly when the requested
`(apsel, apbanksel)` pair differs from the cache; afterwards the cache
holds the requested pair, so a second access to the same pair issues no
SELECT write and two consecutive same-pair accesses put at most one SELECT
write on the wire. -/
theorem c3_select_cache (s : ProbeState) (port ap_bank : Nat) :
    ((select_ap_and_ap_bank s port ap_bank).2 = [] ↔
      s.current_apsel = port ∧ s.current_apbanksel = ap_bank) ∧
    (select_ap_and_ap_bank s port ap_bank).1 =
      { current_apsel := port, current_apbanksel := ap_bank } ∧
    (select_ap_and_ap_bank
      (select_ap_and_ap_bank s port ap_bank).1 port ap_bank).2 = [] ∧
    (select_ap_and_ap_bank s port ap_bank).2.length +
      (select_ap_and_ap_bank
        (select_ap_and_ap_bank s port ap_bank).1 port ap_bank).2.length ≤ 1 := by
  obtain ⟨apsel, banksel⟩ := s
  by_cases h1 : apsel = port <;> by_cases h2 : banksel = ap_bank <;>
    simp [select_ap_and_ap_bank, h1, h2]

/-- C4: the buffer-number guard of the double-buffer entry points is
inverted in the source.  With two page buffers, the in-range
`buffer_number = 0` is rejected with an error, while the out-of-range
`buffer_number = 2` reaches the `page_buffers` indexing and panics, for
both `start_program_page_with_buffer` and `load_page_buffer`. -/
theorem c4_inverted_guard :
    start_program_page_with_buffer algo0 256 0 0 = BufOutcome.error ∧
    start_program_page_with_buffer algo0 256 0 2 = BufOutcome.panicked ∧
    load_page_buffer algo0 [170] 0 = BufOutcome.error ∧
    load_page_buffer algo0 [170] 2 = BufOutcome.panicked := by
  decide

/-- An even number with bit 0 forced on is its successor. -/
theorem even_lor_one {a : Nat} (h : a % 2 = 0) : a ||| 1 = a + 1 := by
  apply Nat.eq_of_testBit_eq
  intro i
  cases i with
  | zero =>
      rw [Nat.testBit_lor]
      simp only [Nat.testBit_zero]
      have h1 : (a + 1) % 2 = 1 := by omega
      simp [h, h1]
  | succ i =>
      rw [Nat.testBit_lor, Nat.testBit_add_one, Nat.testBit_add_one (a + 1) i,
        Nat.testBit_add_one 1 i]
      have h2 : (a + 1) / 2 = a / 2 := by omega
      simp [h2]

/-- C5 counterexample: with `load_address = 1` (bit 0 already set) the
seeded link register is `load_address + 1 = 2`, not
`load_address ||| 1 = 1`. -/
theorem c5_counterexample :
    (call_function algoOdd 96 none none none none false cs0).regs.lr ≠ 1 ||| 1 := by
  decide

/-- C5 (amended): `call_function` sets `LR` to `load_address + 1` (u32
wrapping add); this coincides with `load_address ||| 1` exactly on even,
non-overflowing load addresses. -/
theorem c5_lr_return (algo : FlashAlgorithm) (pc : Nat)
    (a0 a1 a2 a3 : Option Nat) (init : Bool) (s : CoreState) :
    (call_function algo pc a0 a1 a2 a3 init s).regs.lr =
      (algo.load_address + 1) % 2 ^ 32 ∧
    (algo.load_address % 2 = 0 → algo.load_address + 1 < 2 ^ 32 →
      (call_function algo pc a0 a1 a2 a3 init s).regs.lr =
        algo.load_address ||| 1) := by
  refine ⟨rfl, fun he hlt => ?_⟩
  show (algo.load_address + 1) % 2 ^ 32 = algo.load_address ||| 1
  rw [Nat.mod_eq_of_lt hlt, even_lor_one he]

/-- Witness for C5 at a concrete input: for the even load address of
`algo0` the link register equals both `load_address + 1` and
`load_address ||| 1`. -/
theorem c5_lr_return_witness :
    (call_function algo0 96 none none none none false cs0).regs.lr =
      (algo0.load_address + 1) % 2 ^ 32 ∧
    (call_function algo0 96 none none none none false cs0).regs.lr =
      algo0.load_address ||| 1 :=
  ⟨(c5_lr_return algo0 96 none none none none false cs0).1,
   (c5_lr_return algo0 96 none none none none false cs0).2 (by decide) (by decide)⟩

/-- C6 counterexample: for the Erase phase (1) with no caller clock, the
`pc_init` call seeds `r1 = 0` (the defaulted clock), not the phase value
1 — the phase travels in `r2`, not `r1`. -/
theorem c6_counterexample :
    (initCallRegs 1 algo0 96 (some 0) none cs0).r1 ≠ 1 := by
  decide

/-- C6 (amended): the operation's phase value is seeded into `r2` for the
`pc_init` call and into `r0` for the `pc_uninit` call, and each call
succeeds iff the routine's result word on those seeded registers is 0. -/
theorem c6_phase_regs (op pc : Nat) (algo : FlashAlgorithm)
    (exec : Regs → Nat) (address clock : Option Nat) (s : CoreState) :
    (initCallRegs op algo pc address clock s).r2 = op ∧
    (uninitCallRegs op algo pc s).r0 = op ∧
    (algo.pc_uninit = some pc →
      ((ActiveFlasher.uninit op algo exec s).1 = .ok () ↔
        exec (uninitCallRegs op algo pc s) = 0)) ∧
    (algo.pc_init = some pc →
      ((ActiveFlasher.init op algo exec address clock s).1 = .ok () ↔
        exec (initCallRegs op algo pc address clock s) = 0)) := by
  refine ⟨by simp [initCallRegs, call_function], by simp [uninitCallRegs, call_function],
    fun hpu => ?_, fun hpi => ?_⟩
  · simp only [ActiveFlasher.uninit, hpu, call_function_and_wait, wait_for_completion,
      uninitCallRegs]
    by_cases h : exec (call_function algo pc (some op) none none none false s).regs = 0 <;>
      simp [h]
  · rw [activeFlasherInit_some op algo exec address clock s pc hpi]
    by_cases h : exec (initCallRegs op algo pc address clock s) = 0 <;> simp [h]

/-- Witness for C6 at a concrete input: Program phase 2 lands in `r2` of
the init call and `r0` of the uninit call, and with a routine returning 0
the uninit call succeeds. -/
theorem c6_phase_regs_witness :
    (initCallRegs 2 algo0 96 (some 0) (some 5) cs0).r2 = 2 ∧
    (uninitCallRegs 2 algo0 104 cs0).r0 = 2 ∧
    ((ActiveFlasher.uninit 2 algo0 exec0 cs0).1 = .ok () ↔
      exec0 (uninitCallRegs 2 algo0 104 cs0) = 0) :=
  ⟨(c6_phase_regs 2 96 algo0 exec0 (some 0) (some 5) cs0).1,
   (c6_phase_regs 2 104 algo0 exec0 (some 0) (some 5) cs0).2.1,
   (c6_phase_regs 2 104 algo0 exec0 (some 0) (some 5) cs0).2.2.1 rfl⟩

/-- C7: `erase_all` fails with `EraseAllNotSupported` exactly when the
algorithm has no `pc_erase_all` entry point, and succeeds when the entry
point is present and its result word is 0. -/
theorem c7_erase_all (algo : FlashAlgorithm) (exec : Regs → Nat)
    (s : CoreState) :
    ((erase_all algo exec s).1 = .error .EraseAllNotSupported ↔
      algo.pc_erase_all = none) ∧
    (∀ pc, algo.pc_erase_all = some pc →
      exec (call_function algo pc none none none none false s).regs = 0 →
      (erase_all algo exec s).1 = .ok ()) := by
  cases hpe : algo.pc_erase_all with
  | none => simp [erase_all, hpe]
  | some pce =>
      constructor
      · simp only [erase_all, hpe, call_function_and_wait, wait_for_completion]
        by_cases h : exec (call_function algo pce none none none none false s).regs = 0 <;>
          simp [h]
      · intro pc hpc hres
        injection hpc with h
        subst h
        simp [erase_all, hpe, call_function_and_wait, wait_for_completion, hres]

/-- Witness for C7 at concrete inputs: `algo0` (no `pc_erase_all`) fails
with `EraseAllNotSupported`; `algoEA` with a routine returning 0
succeeds. -/
theorem c7_erase_all_witness :
    (erase_all algo0 exec0 cs0).1 = .error .EraseAllNotSupported ∧
    (erase_all algoEA exec0 cs0).1 = .ok () :=
  ⟨(c7_erase_all algo0 exec0 cs0).1.mpr rfl,
   (c7_erase_all algoEA exec0 cs0).2 128 rfl rfl⟩

/-- C8: `nrf_recover` fails with `NotFound(CtrlAp)` exactly when no access
port's IDR equals the Control AP fingerprint; once the Control AP is found
and the poll loop finishes — whether the status cleared or the 15-second
timeout struck — the outcome is success, with the write log pulsing RESET,
setting ERASEALL, pulsing RESET again and clearing ERASEALL; the poll loop
breaks without timeout as soon as the status reads clear, breaks with
timeout once 15 seconds elapsed, and keeps polling otherwise. -/
theorem c8_nrf_recover (idrs : List IDR) (polls : List (Bool × Nat)) :
    (nrf_recover idrs polls = .notFoundCtrlAp ↔
      ∀ idr ∈ idrs, idr ≠ CTRL_AP_IDR) ∧
    (∀ t, get_ap_by_idr idrs ctrlApMatch ≠ none → erasePollLoop polls = some t →
      nrf_recover idrs polls = .ok recoverWrites t) ∧
    (∀ elapsed rest, erasePollLoop ((false, elapsed) :: rest) = some false) ∧
    (∀ elapsed rest, UNLOCK_TIMEOUT ≤ elapsed →
      erasePollLoop ((true, elapsed) :: rest) = some true) ∧
    (∀ elapsed rest, elapsed < UNLOCK_TIMEOUT →
      erasePollLoop ((true, elapsed) :: rest) = erasePollLoop rest) := by
  refine ⟨⟨fun h => ?_, fun h => ?_⟩, fun t hne hloop => ?_, fun e rest => ?_,
    fun e rest he => ?_, fun e rest he => ?_⟩
  · by_cases hf : get_ap_by_idr idrs ctrlApMatch = none
    · intro idr hm
      have hx := List.findIdx?_eq_none_iff.mp hf idr hm
      simpa [ctrlApMatch] using hx
    · exfalso
      obtain ⟨k, hk⟩ := Option.ne_none_iff_exists'.mp hf
      cases he : erasePollLoop polls <;> simp [nrf_recover, hk, he] at h
  · have hf : get_ap_by_idr idrs ctrlApMatch = none := by
      apply List.findIdx?_eq_none_iff.mpr
      intro x hx
      simp [ctrlApMatch, h x hx]
    simp [nrf_recover, hf]
  · obtain ⟨k, hk⟩ := Option.ne_none_iff_exists'.mp hne
    simp [nrf_recover, hk, hloop]
  · simp [erasePollLoop]
  · simp [erasePollLoop, he]
  · have hn : ¬ UNLOCK_TIMEOUT ≤ e := by omega
    simp [erasePollLoop, hn]

/-- Witness for C8 at concrete inputs: an empty AP scan yields
`NotFound(CtrlAp)`; with the Control AP present, a poll trace that times
out at 20 s and one whose status clears both end in success, logging the
same write sequence. -/
theorem c8_nrf_recover_witness :
    nrf_recover [] [(false, 0)] = .notFoundCtrlAp ∧
    nrf_recover [CTRL_AP_IDR] [(true, 20)] = .ok recoverWrites true ∧
    nrf_recover [CTRL_AP_IDR] [(true, 3), (false, 4)] = .ok recoverWrites false :=
  ⟨(c8_nrf_recover [] [(false, 0)]).1.mpr (by simp),
   (c8_nrf_recover [CTRL_AP_IDR] [(true, 20)]).2.1 true (by decide) (by decide),
   (c8_nrf_recover [CTRL_AP_IDR] [(true, 3), (false, 4)]).2.1 false
     (by decide) (by decide)⟩

/-- The halt-wait loop never exits when every poll errors. -/
theorem waitHaltLoop_allErr (i fuel : Nat) :
    waitHaltLoop allErrPolls i fuel = false := by
  induction fuel generalizing i with
  | zero => rfl
  | succ n ih => simp [waitHaltLoop, allErrPolls, ih]

/-- C9 counterexample: on the trace where every `wait_for_core_halted`
call returns an error, the `while ... is_err()` loop of
`wait_for_completion` never exits, whatever iteration budget it is given —
there is no retry bound or wall-clock timeout. -/
theorem c9_counterexample : waitLoopNeverExits allErrPolls :=
  fun i fuel => waitHaltLoop_allErr i fuel

/-- C9 (amended): the halt-wait loop of `wait_for_completion` terminates
exactly when some `wait_for_core_halted` call eventually succeeds — it
exits within `k + 1` iterations when the k-th poll succeeds, and an exit
implies some poll succeeded; on persistent errors it loops forever. -/
theorem c9_wait_loop (polls : Nat → Bool) (i k : Nat) :
    (polls (i + k) = true → waitHaltLoop polls i (k + 1) = true) ∧
    (waitHaltLoop polls i k = true → ∃ j, polls (i + j) = true) := by
  constructor
  · induction k generalizing i with
    | zero => intro h; simpa [waitHaltLoop] using h
    | succ n ih =>
        intro h
        by_cases hp : polls i
        · simp [waitHaltLoop, hp]
        · have h1 : polls (i + 1 + n) = true := by
            rw [show i + 1 + n = i + (n + 1) by omega]
            exact h
          have h2 := ih (i + 1) h1
          simp only [waitHaltLoop] at h2 ⊢
          rw [if_neg hp]
          exact h2
  · induction k generalizing i with
    | zero => intro h; cases h
    | succ n ih =>
        intro h
        by_cases hp : polls i
        · exact ⟨0, by simpa using hp⟩
        · simp only [waitHaltLoop, hp, if_false] at h
          obtain ⟨j, hj⟩ := ih (i + 1) h
          exact ⟨j + 1, by rw [show i + (j + 1) = i + 1 + j by omega]; exact hj⟩

/-- Witness for C9 at a concrete input: on a trace whose third poll
succeeds, the loop exits within three iterations. -/
theorem c9_wait_loop_witness : waitHaltLoop somePolls 0 3 = true :=
  (c9_wait_loop somePolls 0 2).1 (by decide)

/-- C10: a freshly constructed `MasterProbe` caches
`(current_apsel, current_apbanksel) = (0, 0)` without any probe I/O, so
the first AP access targeting access port 0, bank 0 matches the cache and
issues no DP SELECT write. -/
theorem c10_fresh_cache :
    from_specific_probe.current_apsel = 0 ∧
    from_specific_probe.current_apbanksel = 0 ∧
    (select_ap_and_ap_bank from_specific_probe 0 0).1 = from_specific_probe ∧
    (select_ap_and_ap_bank from_specific_probe 0 0).2 = [] := by
  decide
